import Mathlib

/-!
# powerlawFit: the command-line driver of the power-law fitting engine

A shallow embedding of `src/powerlawFit.cpp`: `PowerLawFit::getInput`,
`PowerLawFit::run`, `required_option` and `main`.

The driver is glue around three things that live outside the file and are
taken as parameters here:

* the fitting engine `graph::Powerlaw< ValueType >` of `powerlawCommon.h`
  (`Engine`), of which only the two calls `SingleFit` and `BootstrapFit` are visible;
* the file system (`FileSystem`), which tells for a path whether it can be opened
  and which extraction steps the text of the file gives;
* the outcome of `boost::program_options` parsing (`Except Exception VariablesMap`).

Everything the driver does to the outside is recorded in a `World`: what was
inserted into `std::cout` and `std::cerr`, which files were opened and which engine
routines were invoked, each in order.
-/

namespace PowerLawFit

/-! ## Data model -/

/-- The element type, `typedef double ValueType`. The driver only compares values
with `0`, stores them and prints them. Stream extraction stores finite values only
(no `nan`, no `inf`, failure on overflow), so the comparison is the one of the
rationals. -/
abbrev ValueType := ℚ

/-- The sample and result type, `typedef std::vector< ValueType > VectorType`. -/
abbrev VectorType := List ValueType

/-- Process status `EXIT_SUCCESS`. -/
def EXIT_SUCCESS : Nat := 0

/-- Process status `EXIT_FAILURE`. -/
def EXIT_FAILURE : Nat := 1

/-- The exceptions that reach the `catch( std::exception& e )` of `main`. -/
inductive Exception where
  /-- `std::logic_error( what )`, thrown by `required_option`. -/
  | logic_error (what : String)
  /-- `std::out_of_range`, thrown by `results.at( n )` when `n >= size`. -/
  | out_of_range (n size : Nat)
  /-- An error of `boost::program_options` while parsing the command line. -/
  | program_options (what : String)
  deriving DecidableEq, Repr

/-- One insertion (`<<`) into an output stream. -/
inductive Chunk where
  /-- A string. -/
  | text (s : String)
  /-- A `double`. -/
  | value (x : ValueType)
  /-- The `options_description` object `desc` (the usage text). -/
  | desc
  /-- The text `e.what()` of a caught exception. -/
  | what (e : Exception)
  /-- The manipulator `std::endl`: end of line and flush. -/
  | endl
  deriving DecidableEq, Repr

/-- One step of the extraction `inFile >> x` on the text of the input file: either the
extraction succeeds and yields a value (`number`), or it meets text from which no number can
be read and fails (`malformed`). The list of a file is the sequence of these steps in the
order the read loop would take them; the end of the list is the end of the file. The steps are
not the whitespace-separated words of the file: extraction takes the longest leading part of
the text that reads as a number, so the word `1-2` is the numbers `1` and `-2`, the word
`1.5.3` is the numbers `1.5` and `.3`, and the word `12abc` is the number `12` followed by a
`malformed` step. -/
inductive Token where
  | number (x : ValueType)
  | malformed
  deriving DecidableEq, Repr

/-- The file system: `none` when the file cannot be opened, otherwise the extraction
steps the text of the file gives, in order. -/
abbrev FileSystem := String → Option (List Token)

/-- One invocation of an engine routine, with the arguments it received. -/
inductive EngineCall where
  | SingleFit (values : VectorType) (nosmall finite : Bool)
      (startXmin incrementXmin endXmin : ValueType)
  | BootstrapFit (values : VectorType) (nosmall finite : Bool)
      (startXmin incrementXmin endXmin : ValueType) (bootstrapIterations : Nat)
      (verbose : Bool)
  deriving DecidableEq, Repr

/-- What a call of an engine routine leaves behind: the `results` vector it filled
(empty on fit failure) and whatever the routine itself inserted into the two
output streams (its progress reporting). -/
structure EngineReturn where
  results : VectorType
  cout : List Chunk
  cerr : List Chunk
  deriving DecidableEq, Repr

/-- The engine `graph::Powerlaw< ValueType >`. Both routines return to their caller:
the engine reports failure through `results` and never ends the process. A routine
is called at most once per run, so a function of the arguments also covers the
random resampling of `BootstrapFit`. -/
structure Engine where
  SingleFit : VectorType → Bool → Bool → ValueType → ValueType → ValueType → EngineReturn
  BootstrapFit : VectorType → Bool → Bool → ValueType → ValueType → ValueType → Nat → Bool →
    EngineReturn

/-- The observable trace of the process. -/
structure World where
  /-- Insertions into `std::cout`, oldest first. -/
  cout : List Chunk
  /-- Insertions into `std::cerr`, oldest first. -/
  cerr : List Chunk
  /-- Paths given to `inFile.open`, oldest first. -/
  opened : List String
  /-- Engine invocations, oldest first. -/
  calls : List EngineCall
  deriving DecidableEq, Repr

/-- The trace of a process that has done nothing yet. -/
def World.init : World := ⟨[], [], [], []⟩

/-- How a piece of code ends. -/
inductive Outcome (α : Type) where
  /-- Control reaches the end (or a `return`). -/
  | returned (a : α) (w : World)
  /-- The process was ended by `exit( status )`. -/
  | exited (status : Nat) (w : World)
  /-- An exception is on its way to the handler. -/
  | thrown (e : Exception) (w : World)
  /-- Undefined behaviour was executed. -/
  | undefined (w : World)
  deriving Repr

/-- The trace up to the point where the code ended. -/
def Outcome.world {α : Type} : Outcome α → World
  | .returned _ w => w
  | .exited _ w => w
  | .thrown _ w => w
  | .undefined w => w

/-- A piece of code: it takes the trace so far and ends in an `Outcome`. -/
def Prog (α : Type) : Type := World → Outcome α

/-- Sequencing: the second piece runs only when the first one returned. -/
def Prog.bind {α β : Type} (m : Prog α) (f : α → Prog β) : Prog β := fun w =>
  match m w with
  | .returned a w1 => f a w1
  | .exited s w1 => .exited s w1
  | .thrown e w1 => .thrown e w1
  | .undefined w1 => .undefined w1

instance : Monad Prog where
  pure a := fun w => .returned a w
  bind := Prog.bind

/-! ## Primitive actions -/

/-- Insert chunks into `std::cout`. -/
def cout (cs : List Chunk) : Prog Unit := fun w =>
  .returned () { w with cout := w.cout ++ cs }

/-- Insert chunks into `std::cerr`. -/
def cerr (cs : List Chunk) : Prog Unit := fun w =>
  .returned () { w with cerr := w.cerr ++ cs }

/-- Library call `exit( status )`. -/
def exit {α : Type} (status : Nat) : Prog α := fun w => .exited status w

/-- `throw e`. -/
def throwException {α : Type} (e : Exception) : Prog α := fun w => .thrown e w

/-- `inFile.open( input.c_str() )`: the open is recorded; the result is the
content of the file, or `none` when `!inFile`. -/
def ifstream_open (fs : FileSystem) (input : String) : Prog (Option (List Token)) := fun w =>
  .returned (fs input) { w with opened := w.opened ++ [input] }

/-- `results.at( n )`: the element, or `std::out_of_range`. -/
def vector_at (v : VectorType) (n : Nat) : Prog ValueType :=
  match v.get? n with
  | some x => pure x
  | none => throwException (.out_of_range n v.length)

/-- `std::min_element( first, last )` on a vector: the first smallest element, found
by one pass that keeps the smallest so far; `none` stands for the iterator `last`,
which is what an empty range gives. -/
def min_element : VectorType → Option ValueType
  | [] => none
  | x :: xs => some (xs.foldl (fun smallest y => if y < smallest then y else smallest) x)

/-- Dereference `*it` of the iterator `min_element` returned: undefined behaviour for
the past-the-end iterator. -/
def deref (it : Option ValueType) : Prog ValueType := fun w =>
  match it with
  | some x => .returned x w
  | none => .undefined w

/-- Call of `graph::Powerlaw< ValueType >::SingleFit( values, results, ... )`; the value is
`results` after the call. -/
def SingleFit (engine : Engine) (values : VectorType) (nosmall finite : Bool)
    (startXmin incrementXmin endXmin : ValueType) : Prog VectorType := fun w =>
  let r := engine.SingleFit values nosmall finite startXmin incrementXmin endXmin
  .returned r.results
    { w with
      cout := w.cout ++ r.cout
      cerr := w.cerr ++ r.cerr
      calls := w.calls ++ [.SingleFit values nosmall finite startXmin incrementXmin endXmin] }

/-- Call of `graph::Powerlaw< ValueType >::BootstrapFit( values, results, ... )`; the value
is `results` after the call. -/
def BootstrapFit (engine : Engine) (values : VectorType) (nosmall finite : Bool)
    (startXmin incrementXmin endXmin : ValueType) (bootstrapIterations : Nat) (verbose : Bool) :
    Prog VectorType := fun w =>
  let r := engine.BootstrapFit values nosmall finite startXmin incrementXmin endXmin
    bootstrapIterations verbose
  .returned r.results
    { w with
      cout := w.cout ++ r.cout
      cerr := w.cerr ++ r.cerr
      calls := w.calls ++ [.BootstrapFit values nosmall finite startXmin incrementXmin endXmin
        bootstrapIterations verbose] }

/-! ## `PowerLawFit` -/

/-- The loop `while ( inFile >> x ) { output.push_back( x ); }`: it ends at the end of
the file or at the first extraction that fails, and what follows is never read. -/
def readLoop : List Token → VectorType → VectorType
  | .number x :: rest, output => readLoop rest (output ++ [x])
  | .malformed :: _, output => output
  | [], output => output

/-- `PowerLawFit::getInput`: return input from given text file as vector. -/
def getInput (fs : FileSystem) (input : String) : Prog VectorType := do
  let inFile ← ifstream_open fs input
  match inFile with
  | none =>
    cout [.text "*** ERROR ***: Unable to open: ", .text input, .text ".", .endl]
    exit EXIT_FAILURE
  | some tokens =>
    let output := readLoop tokens []
    let smallest ← deref (min_element output)
    if smallest < 0 then
      cerr [.text "*** ERROR ***: Negative input not supported!", .endl]
      exit EXIT_FAILURE
    else
      return output

/-- `PowerLawFit::run`: power law fit. Within one statement the insertions happen
left to right, so the key is inserted before `results.at( n )` is evaluated (this
matters only for a result vector that is too short). -/
def run (fs : FileSystem) (engine : Engine) (inputFileName : String) (nosmall finite : Bool)
    (startXmin incrementXmin endXmin : ValueType) (bootstrap : Bool)
    (bootstrapIterations : Nat) (verbose : Bool) : Prog Unit := do
  let values ← getInput fs inputFileName
  if bootstrap then
    let results ← BootstrapFit engine values nosmall finite startXmin incrementXmin endXmin
      bootstrapIterations verbose
    if !results.isEmpty then
      cout [.text "Alpha,"]
      let r0 ← vector_at results 0
      cout [.value r0, .endl]
      cout [.text "Xmin,"]
      let r1 ← vector_at results 1
      cout [.value r1, .endl]
      cout [.text "Log-likelihood,"]
      let r2 ← vector_at results 2
      cout [.value r2, .endl]
      cout [.text "Alpha_sd,"]
      let r3 ← vector_at results 3
      cout [.value r3, .endl]
      cout [.text "Xmin_sd,"]
      let r4 ← vector_at results 4
      cout [.value r4, .endl]
      cout [.text "Log-likelihood_sd,"]
      let r5 ← vector_at results 5
      cout [.value r5, .endl]
    else
      cerr [.text "*** ERROR ***: maximum likelihood bootstrap estimation failed! -> check input ...",
        .endl]
  else
    let results ← SingleFit engine values nosmall finite startXmin incrementXmin endXmin
    if !results.isEmpty then
      cout [.text "Alpha,"]
      let r0 ← vector_at results 0
      cout [.value r0, .endl]
      cout [.text "Xmin,"]
      let r1 ← vector_at results 1
      cout [.value r1, .endl]
      cout [.text "Log-likelihood,"]
      let r2 ← vector_at results 2
      cout [.value r2, .endl]
    else
      cerr [.text "*** ERROR ***: maximum likelihood single estimation failed! -> check input ...",
        .endl]

/-! ## `main` -/

/-- The `po::variables_map vm` after `po::store` and `po::notify`, together with the
variables the options are bound to. `help` tells whether the help option was given,
`input` holds the path when the input option was given; the other options have a
default value and are always present. -/
structure VariablesMap where
  help : Bool
  input : Option String
  nosmall : Bool
  finite : Bool
  bootstrap : Bool
  verbose : Bool
  startXmin : ValueType
  incrementXmin : ValueType
  endXmin : ValueType
  bootstrapIterations : Nat
  deriving DecidableEq, Repr

/-- `vm.count( name )`: the number of values stored under an option name. -/
def VariablesMap.count (vm : VariablesMap) (name : String) : Nat :=
  if name = "help" then (if vm.help then 1 else 0)
  else if name = "input" then (if vm.input.isSome then 1 else 0)
  else if name ∈ ["finite", "verbose", "nosmall", "bootstrap", "start-xmin", "increment-xmin",
      "end-xmin", "bootstrap-iterations"] then 1
  else 0

/-- `required_option`: throw error if required option is not specified. -/
def required_option (vm : VariablesMap) (required_option : String) : Prog Unit :=
  if vm.count required_option = 0 then
    throwException (.logic_error ("Option: '" ++ required_option ++ "' is required!"))
  else
    pure ()

/-- The application description of `main`. -/
def description : String := "Fits a power-law distributional model to data.\n"

/-- The `try` block of `main`. `parsed` is what parsing the command line gave: the
exception it threw, or the variables map. The value is `some status` when the block
executed `return status`, and `none` when control left the block at its end. -/
def tryBlock (fs : FileSystem) (engine : Engine) (argv0 : String)
    (parsed : Except Exception VariablesMap) : Prog (Option Nat) :=
  match parsed with
  | .error e => throwException e
  | .ok vm => do
    if vm.count "help" ≠ 0 then
      cout [.text argv0, .text ": ", .text description, .endl]
      cout [.desc, .text "\n"]
      return some EXIT_SUCCESS
    else
      required_option vm "input"
      run fs engine (vm.input.getD "") vm.nosmall vm.finite vm.startXmin vm.incrementXmin
        vm.endXmin vm.bootstrap vm.bootstrapIterations vm.verbose
      return none

/-- How the process ends. -/
inductive ProcessResult where
  /-- The process ended with an exit status. -/
  | terminated (status : Nat) (w : World)
  /-- The process executed undefined behaviour. -/
  | undefined (w : World)
  deriving DecidableEq, Repr

/-- The exit status, when the process has one. -/
def ProcessResult.status : ProcessResult → Option Nat
  | .terminated s _ => some s
  | .undefined _ => none

/-- The trace of the process. -/
def ProcessResult.world : ProcessResult → World
  | .terminated _ w => w
  | .undefined w => w

/-- `main`: fit powerlaw to list of numbers. -/
def main (fs : FileSystem) (engine : Engine) (argv0 : String)
    (parsed : Except Exception VariablesMap) : ProcessResult :=
  match tryBlock fs engine argv0 parsed World.init with
  | .returned (some status) w => .terminated status w
  | .returned none w => .terminated EXIT_SUCCESS w
  | .exited status w => .terminated status w
  | .thrown e w =>
    .terminated EXIT_FAILURE
      { w with
        cerr := w.cerr ++ [.text "*** ERROR ***: ", .what e, .text "\n"] ++
          [.text "Use \"", .text argv0,
            .text " --help\" for information about application usage.", .endl] }
  | .undefined w => .undefined w

/-! ## Sample inputs -/

/-- An engine whose routines leave the given results, whatever the arguments, and
insert nothing into the output streams themselves. -/
def constEngine (single bootstrap : VectorType) : Engine :=
  ⟨fun _ _ _ _ _ _ => ⟨single, [], []⟩, fun _ _ _ _ _ _ _ _ => ⟨bootstrap, [], []⟩⟩

/-- A file system with one readable file. -/
def oneFile (path : String) (tokens : List Token) : FileSystem :=
  fun p => if p = path then some tokens else none

/-- The variables map of a command line that gives no option but possibly the input
file: every other option has the default value `main` declares for it. -/
def defaults (input : Option String) : VariablesMap :=
  { help := false, input := input, nosmall := false, finite := false, bootstrap := false,
    verbose := false, startXmin := 1.5, incrementXmin := 0.01, endXmin := 3.5,
    bootstrapIterations := 1000 }

/-! ## Auxiliary facts -/

@[simp] theorem bind_apply {α β : Type} (m : Prog α) (f : α → Prog β) (w : World) :
    (m >>= f) w = Prog.bind m f w := rfl

@[simp] theorem pure_apply {α : Type} (a : α) (w : World) :
    (pure a : Prog α) w = .returned a w := rfl

theorem readLoop_append (tokens : List Token) (output : VectorType) :
    readLoop tokens output = output ++ readLoop tokens [] := by
  induction tokens generalizing output with
  | nil => simp [readLoop]
  | cons t rest ih =>
    cases t with
    | number x =>
      simp only [readLoop]
      rw [ih (output ++ [x]), ih ([] ++ [x])]
      simp
    | malformed => simp [readLoop]

theorem readLoop_numbers_eof (vs : VectorType) :
    readLoop (vs.map Token.number) [] = vs := by
  induction vs with
  | nil => simp [readLoop]
  | cons v vs ih =>
    rw [List.map_cons, readLoop, readLoop_append, ih]
    simp

theorem foldl_smallest_le (xs : VectorType) (x : ValueType) :
    xs.foldl (fun smallest y => if y < smallest then y else smallest) x ≤ x ∧
    ∀ v ∈ xs, xs.foldl (fun smallest y => if y < smallest then y else smallest) x ≤ v := by
  induction xs generalizing x with
  | nil => simp
  | cons y ys ih =>
    simp only [List.foldl_cons, List.mem_cons, forall_eq_or_imp]
    have h := ih (if y < x then y else x)
    refine ⟨?_, ?_, h.2⟩
    · refine le_trans h.1 ?_
      split_ifs with hyx
      · exact le_of_lt hyx
      · exact le_refl x
    · refine le_trans h.1 ?_
      split_ifs with hyx
      · exact le_refl y
      · exact not_lt.mp hyx

theorem foldl_smallest_mem (xs : VectorType) (x : ValueType) :
    xs.foldl (fun smallest y => if y < smallest then y else smallest) x ∈ x :: xs := by
  induction xs generalizing x with
  | nil => simp
  | cons y ys ih =>
    simp only [List.foldl_cons]
    have h := ih (if y < x then y else x)
    simp only [List.mem_cons] at h ⊢
    rcases h with h | h
    · rw [h]
      split_ifs
      · exact Or.inr (Or.inl rfl)
      · exact Or.inl rfl
    · exact Or.inr (Or.inr h)

theorem min_element_spec (vs : VectorType) (hne : vs ≠ []) :
    ∃ m, min_element vs = some m ∧ m ∈ vs ∧ ∀ v ∈ vs, m ≤ v := by
  cases vs with
  | nil => exact absurd rfl hne
  | cons x xs =>
    refine ⟨_, rfl, foldl_smallest_mem xs x, ?_⟩
    intro v hv
    rcases List.mem_cons.mp hv with h | h
    · rw [h]; exact (foldl_smallest_le xs x).1
    · exact (foldl_smallest_le xs x).2 v h

theorem getInput_unreadable (fs : FileSystem) (input : String) (w : World)
    (hfs : fs input = none) :
    getInput fs input w = .exited EXIT_FAILURE
      { w with
        cout := w.cout ++ [.text "*** ERROR ***: Unable to open: ", .text input, .text ".", .endl]
        opened := w.opened ++ [input] } := by
  simp [getInput, Prog.bind, ifstream_open, hfs, cout, exit]

theorem getInput_empty (fs : FileSystem) (input : String) (tokens : List Token) (w : World)
    (hfs : fs input = some tokens) (hempty : readLoop tokens [] = []) :
    getInput fs input w = .undefined { w with opened := w.opened ++ [input] } := by
  simp [getInput, Prog.bind, ifstream_open, hfs, hempty, min_element, deref]

theorem getInput_negative (fs : FileSystem) (input : String) (tokens : List Token) (w : World)
    (hfs : fs input = some tokens) (hneg : ∃ v ∈ readLoop tokens [], v < 0) :
    getInput fs input w = .exited EXIT_FAILURE
      { w with
        cerr := w.cerr ++ [.text "*** ERROR ***: Negative input not supported!", .endl]
        opened := w.opened ++ [input] } := by
  obtain ⟨v, hv, hv0⟩ := hneg
  obtain ⟨m, hm, -, hle⟩ := min_element_spec (readLoop tokens []) (List.ne_nil_of_mem hv)
  have hm0 : m < 0 := lt_of_le_of_lt (hle v hv) hv0
  simp [getInput, Prog.bind, ifstream_open, hfs, hm, deref, hm0, cerr, exit]

theorem getInput_accepted (fs : FileSystem) (input : String) (tokens : List Token) (w : World)
    (hfs : fs input = some tokens) (hne : readLoop tokens [] ≠ [])
    (hpos : ∀ v ∈ readLoop tokens [], 0 ≤ v) :
    getInput fs input w = .returned (readLoop tokens [])
      { w with opened := w.opened ++ [input] } := by
  obtain ⟨m, hm, hmem, -⟩ := min_element_spec (readLoop tokens []) hne
  have hm0 : ¬ m < 0 := not_lt.mpr (hpos m hmem)
  simp [getInput, Prog.bind, ifstream_open, hfs, hm, deref, hm0]


/-- The count of the help option. -/
theorem count_help (vm : VariablesMap) : vm.count "help" = if vm.help then 1 else 0 := by
  simp [VariablesMap.count]

/-- The count of the input option. -/
theorem count_input (vm : VariablesMap) :
    vm.count "input" = if vm.input.isSome then 1 else 0 := by
  simp [VariablesMap.count]

/-- What `main` makes of the way `run` ends, for a command line that parsed, does not
ask for help and names the input file. -/
theorem main_of_run (fs : FileSystem) (engine : Engine) (argv0 : String) (vm : VariablesMap)
    (path : String) (hhelp : vm.help = false) (hin : vm.input = some path) :
    main fs engine argv0 (.ok vm) =
      match run fs engine path vm.nosmall vm.finite vm.startXmin vm.incrementXmin vm.endXmin
          vm.bootstrap vm.bootstrapIterations vm.verbose World.init with
      | .returned _ w => .terminated EXIT_SUCCESS w
      | .exited status w => .terminated status w
      | .thrown e w =>
        .terminated EXIT_FAILURE
          { w with
            cerr := w.cerr ++ [.text "*** ERROR ***: ", .what e, .text "\n"] ++
              [.text "Use \"", .text argv0,
                .text " --help\" for information about application usage.", .endl] }
      | .undefined w => .undefined w := by
  simp only [main, tryBlock, required_option, count_help, count_input, hhelp, hin,
    Option.getD_some, Option.isSome_some, if_true, Bool.false_eq_true, if_false, ne_eq,
    not_true_eq_false, one_ne_zero, bind_apply, Prog.bind, pure_apply]
  generalize run fs engine path vm.nosmall vm.finite vm.startXmin vm.incrementXmin vm.endXmin
    vm.bootstrap vm.bootstrapIterations vm.verbose World.init = o
  cases o <;> simp [Prog.bind]

/-- In single-fit mode, on an accepted sample and a result vector of three values, `run`
inserts the three metric lines and returns. -/
theorem run_single_success (fs : FileSystem) (engine : Engine) (path : String)
    (nosmall finite : Bool) (startXmin incrementXmin endXmin : ValueType)
    (bootstrapIterations : Nat) (verbose : Bool) (tokens : List Token) (w : World)
    (r : EngineReturn) (alpha xmin logL : ValueType)
    (hfs : fs path = some tokens) (hne : readLoop tokens [] ≠ [])
    (hpos : ∀ v ∈ readLoop tokens [], 0 ≤ v)
    (hr : engine.SingleFit (readLoop tokens []) nosmall finite startXmin incrementXmin
      endXmin = r)
    (hres : r.results = [alpha, xmin, logL]) :
    run fs engine path nosmall finite startXmin incrementXmin endXmin false
        bootstrapIterations verbose w =
      .returned ()
        { cout := w.cout ++ r.cout ++
            [.text "Alpha,", .value alpha, .endl, .text "Xmin,", .value xmin, .endl,
              .text "Log-likelihood,", .value logL, .endl]
          cerr := w.cerr ++ r.cerr
          opened := w.opened ++ [path]
          calls := w.calls ++ [.SingleFit (readLoop tokens []) nosmall finite startXmin
            incrementXmin endXmin] } := by
  simp [run, Prog.bind, getInput_accepted fs path tokens w hfs hne hpos, SingleFit, hr, hres,
    cout, vector_at]

/-- In bootstrap mode, on an accepted sample and a result vector of six values, `run`
inserts the six metric lines and returns. -/
theorem run_bootstrap_success (fs : FileSystem) (engine : Engine) (path : String)
    (nosmall finite : Bool) (startXmin incrementXmin endXmin : ValueType)
    (bootstrapIterations : Nat) (verbose : Bool) (tokens : List Token) (w : World)
    (r : EngineReturn) (v0 v1 v2 v3 v4 v5 : ValueType)
    (hfs : fs path = some tokens) (hne : readLoop tokens [] ≠ [])
    (hpos : ∀ v ∈ readLoop tokens [], 0 ≤ v)
    (hr : engine.BootstrapFit (readLoop tokens []) nosmall finite startXmin incrementXmin
      endXmin bootstrapIterations verbose = r)
    (hres : r.results = [v0, v1, v2, v3, v4, v5]) :
    run fs engine path nosmall finite startXmin incrementXmin endXmin true
        bootstrapIterations verbose w =
      .returned ()
        { cout := w.cout ++ r.cout ++
            [.text "Alpha,", .value v0, .endl, .text "Xmin,", .value v1, .endl,
              .text "Log-likelihood,", .value v2, .endl,
              .text "Alpha_sd,", .value v3, .endl, .text "Xmin_sd,", .value v4, .endl,
              .text "Log-likelihood_sd,", .value v5, .endl]
          cerr := w.cerr ++ r.cerr
          opened := w.opened ++ [path]
          calls := w.calls ++ [.BootstrapFit (readLoop tokens []) nosmall finite startXmin
            incrementXmin endXmin bootstrapIterations verbose] } := by
  simp [run, Prog.bind, getInput_accepted fs path tokens w hfs hne hpos, BootstrapFit, hr,
    hres, cout, vector_at]

/-- On an accepted sample and an empty result vector, `run` inserts the error message
of its mode into `std::cerr`, nothing into `std::cout`, and returns. -/
theorem run_fit_failure (fs : FileSystem) (engine : Engine) (path : String)
    (nosmall finite : Bool) (startXmin incrementXmin endXmin : ValueType) (bootstrap : Bool)
    (bootstrapIterations : Nat) (verbose : Bool) (tokens : List Token) (w : World)
    (r : EngineReturn)
    (hfs : fs path = some tokens) (hne : readLoop tokens [] ≠ [])
    (hpos : ∀ v ∈ readLoop tokens [], 0 ≤ v)
    (hr : (if bootstrap then
        engine.BootstrapFit (readLoop tokens []) nosmall finite startXmin incrementXmin endXmin
          bootstrapIterations verbose
      else
        engine.SingleFit (readLoop tokens []) nosmall finite startXmin incrementXmin
          endXmin) = r)
    (hres : r.results = []) :
    run fs engine path nosmall finite startXmin incrementXmin endXmin bootstrap
        bootstrapIterations verbose w =
      .returned ()
        { cout := w.cout ++ r.cout
          cerr := w.cerr ++ r.cerr ++
            [.text (if bootstrap then
                "*** ERROR ***: maximum likelihood bootstrap estimation failed! -> check input ..."
              else
                "*** ERROR ***: maximum likelihood single estimation failed! -> check input ..."),
              .endl]
          opened := w.opened ++ [path]
          calls := w.calls ++
            [if bootstrap then
              .BootstrapFit (readLoop tokens []) nosmall finite startXmin incrementXmin endXmin
                bootstrapIterations verbose
            else
              .SingleFit (readLoop tokens []) nosmall finite startXmin incrementXmin endXmin] } := by
  cases bootstrap
  · simp only [Bool.false_eq_true, if_false] at hr
    simp [run, Prog.bind, getInput_accepted fs path tokens w hfs hne hpos, SingleFit, hr, hres,
      cerr]
  · simp only [if_true] at hr
    simp [run, Prog.bind, getInput_accepted fs path tokens w hfs hne hpos, BootstrapFit, hr,
      hres, cerr]

/-- On an accepted sample `run` invokes one engine routine, the one of its mode, with
the sample and the arguments it was given, however the run ends afterwards. -/
theorem run_accepted_calls (fs : FileSystem) (engine : Engine) (path : String)
    (nosmall finite : Bool) (startXmin incrementXmin endXmin : ValueType) (bootstrap : Bool)
    (bootstrapIterations : Nat) (verbose : Bool) (tokens : List Token) (w : World)
    (hfs : fs path = some tokens) (hne : readLoop tokens [] ≠ [])
    (hpos : ∀ v ∈ readLoop tokens [], 0 ≤ v) :
    (run fs engine path nosmall finite startXmin incrementXmin endXmin bootstrap
        bootstrapIterations verbose w).world.calls =
      w.calls ++
        [if bootstrap then
          .BootstrapFit (readLoop tokens []) nosmall finite startXmin incrementXmin endXmin
            bootstrapIterations verbose
        else
          .SingleFit (readLoop tokens []) nosmall finite startXmin incrementXmin endXmin] := by
  cases bootstrap
  · simp only [run, bind_apply, Prog.bind, getInput_accepted fs path tokens w hfs hne hpos,
      SingleFit, Bool.false_eq_true, if_false]
    rcases (engine.SingleFit (readLoop tokens []) nosmall finite startXmin incrementXmin
      endXmin).results with _ | ⟨a, _ | ⟨b, _ | ⟨c, rest⟩⟩⟩ <;>
      simp [Prog.bind, cout, cerr, vector_at, throwException, Outcome.world]
  · simp only [run, bind_apply, Prog.bind, getInput_accepted fs path tokens w hfs hne hpos,
      BootstrapFit, if_true]
    rcases (engine.BootstrapFit (readLoop tokens []) nosmall finite startXmin incrementXmin
      endXmin bootstrapIterations verbose).results with
      _ | ⟨a, _ | ⟨b, _ | ⟨c, _ | ⟨d, _ | ⟨e, _ | ⟨f, rest⟩⟩⟩⟩⟩⟩ <;>
      simp [Prog.bind, cout, cerr, vector_at, throwException, Outcome.world]

/-- The trace of `main` holds the engine invocations of `run`. -/
theorem main_calls_of_run (fs : FileSystem) (engine : Engine) (argv0 : String)
    (vm : VariablesMap) (path : String) (hhelp : vm.help = false)
    (hin : vm.input = some path) :
    (main fs engine argv0 (.ok vm)).world.calls =
      (run fs engine path vm.nosmall vm.finite vm.startXmin vm.incrementXmin vm.endXmin
        vm.bootstrap vm.bootstrapIterations vm.verbose World.init).world.calls := by
  rw [main_of_run fs engine argv0 vm path hhelp hin]
  cases run fs engine path vm.nosmall vm.finite vm.startXmin vm.incrementXmin vm.endXmin
    vm.bootstrap vm.bootstrapIterations vm.verbose World.init <;>
    simp [ProcessResult.world, Outcome.world]


/-! ## The claims -/

/-- C1 (the code departs from the claim). For a command line that parsed, does not ask
for help and names a readable input file whose values are accepted (at least one, all
non-negative), in single-fit and in bootstrap mode: when the engine routine leaves the
result vector empty, `main` ends with `EXIT_SUCCESS`, after `run` inserted its error
message into `std::cerr`. The claim asks for `EXIT_FAILURE` here. -/
theorem main_fit_failure_status (fs : FileSystem) (engine : Engine) (argv0 : String)
    (vm : VariablesMap) (path : String) (tokens : List Token) (r : EngineReturn)
    (hhelp : vm.help = false) (hin : vm.input = some path)
    (hfs : fs path = some tokens) (hne : readLoop tokens [] ≠ [])
    (hpos : ∀ v ∈ readLoop tokens [], 0 ≤ v)
    (hr : (if vm.bootstrap then
        engine.BootstrapFit (readLoop tokens []) vm.nosmall vm.finite vm.startXmin
          vm.incrementXmin vm.endXmin vm.bootstrapIterations vm.verbose
      else
        engine.SingleFit (readLoop tokens []) vm.nosmall vm.finite vm.startXmin
          vm.incrementXmin vm.endXmin) = r)
    (hres : r.results = []) :
    main fs engine argv0 (.ok vm) =
      .terminated EXIT_SUCCESS
        { cout := r.cout
          cerr := r.cerr ++
            [.text (if vm.bootstrap then
                "*** ERROR ***: maximum likelihood bootstrap estimation failed! -> check input ..."
              else
                "*** ERROR ***: maximum likelihood single estimation failed! -> check input ..."),
              .endl]
          opened := [path]
          calls :=
            [if vm.bootstrap then
              .BootstrapFit (readLoop tokens []) vm.nosmall vm.finite vm.startXmin
                vm.incrementXmin vm.endXmin vm.bootstrapIterations vm.verbose
            else
              .SingleFit (readLoop tokens []) vm.nosmall vm.finite vm.startXmin
                vm.incrementXmin vm.endXmin] } := by
  rw [main_of_run fs engine argv0 vm path hhelp hin,
    run_fit_failure fs engine path vm.nosmall vm.finite vm.startXmin vm.incrementXmin
      vm.endXmin vm.bootstrap vm.bootstrapIterations vm.verbose tokens World.init r hfs hne
      hpos hr hres]
  simp [World.init]

/-- C1 at a concrete input: the file holds `1 2 3`, the grid is inverted
(`--start-xmin 5 --end-xmin 1`) and the engine leaves `results` empty; the process
ends with status `0`. -/
theorem main_fit_failure_status_witness :
    main (oneFile "data.txt" [.number 1, .number 2, .number 3]) (constEngine [] [])
        "powerlawFit" (.ok { defaults (some "data.txt") with startXmin := 5, endXmin := 1 }) =
      .terminated 0
        { cout := []
          cerr := [.text
            "*** ERROR ***: maximum likelihood single estimation failed! -> check input ...",
            .endl]
          opened := ["data.txt"]
          calls := [.SingleFit [1, 2, 3] false false 5 0.01 1] } := by
  simpa [defaults, constEngine, readLoop, EXIT_SUCCESS] using
    main_fit_failure_status (oneFile "data.txt" [.number 1, .number 2, .number 3])
      (constEngine [] []) "powerlawFit"
      { defaults (some "data.txt") with startXmin := 5, endXmin := 1 } "data.txt"
      [.number 1, .number 2, .number 3] ⟨[], [], []⟩ rfl rfl (by simp [oneFile])
      (by simp [readLoop]) (by simp [readLoop]) rfl rfl

/-- C2. When the values read from the input file contain a value below zero, `getInput`
ends the process with `exit( EXIT_FAILURE )` after its message on `std::cerr`, and so
does `run`: the trace gains nothing on `std::cout` (no metric line) and no engine
invocation (neither `SingleFit` nor `BootstrapFit`). -/
theorem run_rejects_negative_sample (fs : FileSystem) (engine : Engine) (path : String)
    (nosmall finite : Bool) (startXmin incrementXmin endXmin : ValueType) (bootstrap : Bool)
    (bootstrapIterations : Nat) (verbose : Bool) (tokens : List Token) (w : World)
    (hfs : fs path = some tokens) (hneg : ∃ v ∈ readLoop tokens [], v < 0) :
    getInput fs path w =
      .exited EXIT_FAILURE
        { cout := w.cout
          cerr := w.cerr ++ [.text "*** ERROR ***: Negative input not supported!", .endl]
          opened := w.opened ++ [path]
          calls := w.calls } ∧
    run fs engine path nosmall finite startXmin incrementXmin endXmin bootstrap
        bootstrapIterations verbose w =
      .exited EXIT_FAILURE
        { cout := w.cout
          cerr := w.cerr ++ [.text "*** ERROR ***: Negative input not supported!", .endl]
          opened := w.opened ++ [path]
          calls := w.calls } := by
  have h := getInput_negative fs path tokens w hfs hneg
  refine ⟨h, ?_⟩
  simp [run, Prog.bind, h]

/-- C2 at a concrete input: the file holds `1 -2 3`. -/
theorem run_rejects_negative_sample_witness :
    run (oneFile "neg.txt" [.number 1, .number (-2), .number 3]) (constEngine [2, 1, -3] [])
        "neg.txt" false false 1.5 0.01 3.5 false 1000 false World.init =
      .exited 1
        { cout := []
          cerr := [.text "*** ERROR ***: Negative input not supported!", .endl]
          opened := ["neg.txt"]
          calls := [] } := by
  simpa [World.init, EXIT_FAILURE] using
    (run_rejects_negative_sample (oneFile "neg.txt" [.number 1, .number (-2), .number 3])
      (constEngine [2, 1, -3] []) "neg.txt" false false 1.5 0.01 3.5 false 1000 false
      [.number 1, .number (-2), .number 3] World.init (by simp [oneFile])
      ⟨-2, by simp [readLoop], by norm_num⟩).2

/-- C4. In single-fit mode, for a command line that parsed, does not ask for help and names
a readable input file with an accepted sample: when the engine routine leaves the three
values `alpha`, `xmin`, `logL` in `results`, the program inserts into `std::cout` exactly the
three lines `Alpha,alpha`, `Xmin,xmin`, `Log-likelihood,logL` in this order, inserts
nothing into `std::cerr` and ends with `EXIT_SUCCESS`. (`r.cout` and `r.cerr` are what the
engine routine inserted itself before it returned; both are empty for a silent routine.) -/
theorem main_single_fit_output (fs : FileSystem) (engine : Engine) (argv0 : String)
    (vm : VariablesMap) (path : String) (tokens : List Token) (r : EngineReturn)
    (alpha xmin logL : ValueType)
    (hhelp : vm.help = false) (hin : vm.input = some path) (hboot : vm.bootstrap = false)
    (hfs : fs path = some tokens) (hne : readLoop tokens [] ≠ [])
    (hpos : ∀ v ∈ readLoop tokens [], 0 ≤ v)
    (hr : engine.SingleFit (readLoop tokens []) vm.nosmall vm.finite vm.startXmin
      vm.incrementXmin vm.endXmin = r)
    (hres : r.results = [alpha, xmin, logL]) :
    main fs engine argv0 (.ok vm) =
      .terminated EXIT_SUCCESS
        { cout := r.cout ++
            [.text "Alpha,", .value alpha, .endl,
              .text "Xmin,", .value xmin, .endl,
              .text "Log-likelihood,", .value logL, .endl]
          cerr := r.cerr
          opened := [path]
          calls := [.SingleFit (readLoop tokens []) vm.nosmall vm.finite vm.startXmin
            vm.incrementXmin vm.endXmin] } := by
  rw [main_of_run fs engine argv0 vm path hhelp hin, hboot,
    run_single_success fs engine path vm.nosmall vm.finite vm.startXmin vm.incrementXmin
      vm.endXmin vm.bootstrapIterations vm.verbose tokens World.init r alpha xmin logL hfs hne
      hpos hr hres]
  simp [World.init]

/-- C4 at a concrete input: the file holds `1 2 3` and the engine leaves `3 1 -7`. -/
theorem main_single_fit_output_witness :
    main (oneFile "data.txt" [.number 1, .number 2, .number 3]) (constEngine [3, 1, -7] [])
        "powerlawFit" (.ok (defaults (some "data.txt"))) =
      .terminated 0
        { cout := [.text "Alpha,", .value 3, .endl, .text "Xmin,", .value 1, .endl,
            .text "Log-likelihood,", .value (-7), .endl]
          cerr := []
          opened := ["data.txt"]
          calls := [.SingleFit [1, 2, 3] false false 1.5 0.01 3.5] } := by
  simpa [defaults, readLoop, EXIT_SUCCESS] using
    main_single_fit_output (oneFile "data.txt" [.number 1, .number 2, .number 3])
      (constEngine [3, 1, -7] []) "powerlawFit" (defaults (some "data.txt")) "data.txt"
      [.number 1, .number 2, .number 3] ⟨[3, 1, -7], [], []⟩ 3 1 (-7) rfl rfl rfl
      (by simp [oneFile]) (by simp [readLoop]) (by simp [readLoop]) rfl rfl

/-- C5. In bootstrap mode, for a command line that parsed, does not ask for help and names
a readable input file with an accepted sample: when the engine routine leaves six values in
`results`, the program inserts into `std::cout` exactly six lines, with the keys `Alpha`,
`Xmin`, `Log-likelihood`, `Alpha_sd`, `Xmin_sd`, `Log-likelihood_sd` in this order and the
values of indices 0 to 5 in this order, and ends with `EXIT_SUCCESS`. The first three lines
are the single-fit output: what single-fit mode prints for a result vector of the first
three values, followed by the three `_sd` lines, is the bootstrap output. (`r.cout` and
`r.cerr` are what the engine routine inserted itself before it returned.) -/
theorem main_bootstrap_output (fs : FileSystem) (engine : Engine) (argv0 : String)
    (vm : VariablesMap) (path : String) (tokens : List Token) (r : EngineReturn)
    (v0 v1 v2 v3 v4 v5 : ValueType)
    (hhelp : vm.help = false) (hin : vm.input = some path) (hboot : vm.bootstrap = true)
    (hfs : fs path = some tokens) (hne : readLoop tokens [] ≠ [])
    (hpos : ∀ v ∈ readLoop tokens [], 0 ≤ v)
    (hr : engine.BootstrapFit (readLoop tokens []) vm.nosmall vm.finite vm.startXmin
      vm.incrementXmin vm.endXmin vm.bootstrapIterations vm.verbose = r)
    (hres : r.results = [v0, v1, v2, v3, v4, v5]) :
    main fs engine argv0 (.ok vm) =
      .terminated EXIT_SUCCESS
        { cout := r.cout ++
            [.text "Alpha,", .value v0, .endl,
              .text "Xmin,", .value v1, .endl,
              .text "Log-likelihood,", .value v2, .endl,
              .text "Alpha_sd,", .value v3, .endl,
              .text "Xmin_sd,", .value v4, .endl,
              .text "Log-likelihood_sd,", .value v5, .endl]
          cerr := r.cerr
          opened := [path]
          calls := [.BootstrapFit (readLoop tokens []) vm.nosmall vm.finite vm.startXmin
            vm.incrementXmin vm.endXmin vm.bootstrapIterations vm.verbose] } ∧
    ∀ single : Engine,
      single.SingleFit (readLoop tokens []) vm.nosmall vm.finite vm.startXmin vm.incrementXmin
          vm.endXmin = ⟨[v0, v1, v2], r.cout, r.cerr⟩ →
        (main fs single argv0 (.ok { vm with bootstrap := false })).world.cout ++
            [.text "Alpha_sd,", .value v3, .endl,
              .text "Xmin_sd,", .value v4, .endl,
              .text "Log-likelihood_sd,", .value v5, .endl] =
          (main fs engine argv0 (.ok vm)).world.cout := by
  have hmain : main fs engine argv0 (.ok vm) =
      .terminated EXIT_SUCCESS
        { cout := r.cout ++
            [.text "Alpha,", .value v0, .endl,
              .text "Xmin,", .value v1, .endl,
              .text "Log-likelihood,", .value v2, .endl,
              .text "Alpha_sd,", .value v3, .endl,
              .text "Xmin_sd,", .value v4, .endl,
              .text "Log-likelihood_sd,", .value v5, .endl]
          cerr := r.cerr
          opened := [path]
          calls := [.BootstrapFit (readLoop tokens []) vm.nosmall vm.finite vm.startXmin
            vm.incrementXmin vm.endXmin vm.bootstrapIterations vm.verbose] } := by
    rw [main_of_run fs engine argv0 vm path hhelp hin, hboot,
      run_bootstrap_success fs engine path vm.nosmall vm.finite vm.startXmin vm.incrementXmin
        vm.endXmin vm.bootstrapIterations vm.verbose tokens World.init r v0 v1 v2 v3 v4 v5 hfs
        hne hpos hr hres]
    simp [World.init]
  refine ⟨hmain, ?_⟩
  intro single hsingle
  rw [hmain, main_of_run fs single argv0 { vm with bootstrap := false } path hhelp hin]
  simp only []
  rw [run_single_success fs single path vm.nosmall vm.finite vm.startXmin vm.incrementXmin
    vm.endXmin vm.bootstrapIterations vm.verbose tokens World.init ⟨[v0, v1, v2], r.cout, r.cerr⟩
    v0 v1 v2 hfs hne hpos hsingle rfl]
  simp [World.init, ProcessResult.world]

/-- C5 at a concrete input: the file holds `1 2 3` and the engine leaves `3 1 -7 4 5 6`. -/
theorem main_bootstrap_output_witness :
    main (oneFile "data.txt" [.number 1, .number 2, .number 3])
        (constEngine [3, 1, -7] [3, 1, -7, 4, 5, 6]) "powerlawFit"
        (.ok { defaults (some "data.txt") with bootstrap := true }) =
      .terminated 0
        { cout := [.text "Alpha,", .value 3, .endl, .text "Xmin,", .value 1, .endl,
            .text "Log-likelihood,", .value (-7), .endl, .text "Alpha_sd,", .value 4, .endl,
            .text "Xmin_sd,", .value 5, .endl, .text "Log-likelihood_sd,", .value 6, .endl]
          cerr := []
          opened := ["data.txt"]
          calls := [.BootstrapFit [1, 2, 3] false false 1.5 0.01 3.5 1000 false] } := by
  simpa [defaults, readLoop, EXIT_SUCCESS] using
    (main_bootstrap_output (oneFile "data.txt" [.number 1, .number 2, .number 3])
      (constEngine [3, 1, -7] [3, 1, -7, 4, 5, 6]) "powerlawFit"
      { defaults (some "data.txt") with bootstrap := true } "data.txt"
      [.number 1, .number 2, .number 3] ⟨[3, 1, -7, 4, 5, 6], [], []⟩ 3 1 (-7) 4 5 6 rfl rfl rfl
      (by simp [oneFile]) (by simp [readLoop]) (by simp [readLoop]) rfl rfl).1

/-- C6. On an accepted sample, in both modes: when the engine routine leaves `results`
empty, `run` inserts no metric line into `std::cout` (nothing at all), inserts its error
message into `std::cerr` (`single estimation failed` in single-fit mode, `bootstrap
estimation failed` in bootstrap mode) and returns. (`r.cout` and `r.cerr` are what the
engine routine inserted itself before it returned.) -/
theorem run_fit_failure_output (fs : FileSystem) (engine : Engine) (path : String)
    (nosmall finite : Bool) (startXmin incrementXmin endXmin : ValueType) (bootstrap : Bool)
    (bootstrapIterations : Nat) (verbose : Bool) (tokens : List Token) (w : World)
    (r : EngineReturn)
    (hfs : fs path = some tokens) (hne : readLoop tokens [] ≠ [])
    (hpos : ∀ v ∈ readLoop tokens [], 0 ≤ v)
    (hr : (if bootstrap then
        engine.BootstrapFit (readLoop tokens []) nosmall finite startXmin incrementXmin endXmin
          bootstrapIterations verbose
      else
        engine.SingleFit (readLoop tokens []) nosmall finite startXmin incrementXmin
          endXmin) = r)
    (hres : r.results = []) :
    ∃ w1 : World,
      run fs engine path nosmall finite startXmin incrementXmin endXmin bootstrap
        bootstrapIterations verbose w = .returned () w1 ∧
      w1.cout = w.cout ++ r.cout ∧
      w1.cerr = w.cerr ++ r.cerr ++
        [.text (if bootstrap then
            "*** ERROR ***: maximum likelihood bootstrap estimation failed! -> check input ..."
          else
            "*** ERROR ***: maximum likelihood single estimation failed! -> check input ..."),
          .endl] :=
  ⟨_, run_fit_failure fs engine path nosmall finite startXmin incrementXmin endXmin bootstrap
    bootstrapIterations verbose tokens w r hfs hne hpos hr hres, rfl, rfl⟩

/-- C6 at a concrete input: bootstrap mode, the file holds `1 2 3`, `results` stays empty. -/
theorem run_fit_failure_output_witness :
    ∃ w1 : World,
      run (oneFile "data.txt" [.number 1, .number 2, .number 3]) (constEngine [] []) "data.txt"
        false false 1.5 0.01 3.5 true 1000 false World.init = .returned () w1 ∧
      w1.cout = World.init.cout ++ [] ∧
      w1.cerr = World.init.cerr ++ [] ++
        [.text (if true = true then
            "*** ERROR ***: maximum likelihood bootstrap estimation failed! -> check input ..."
          else
            "*** ERROR ***: maximum likelihood single estimation failed! -> check input ..."),
          .endl] :=
  run_fit_failure_output (oneFile "data.txt" [.number 1, .number 2, .number 3])
    (constEngine [] []) "data.txt" false false 1.5 0.01 3.5 true 1000 false
    [.number 1, .number 2, .number 3] World.init ⟨[], [], []⟩ (by simp [oneFile])
    (by simp [readLoop]) (by simp [readLoop]) rfl rfl

/-- C7. For a command line that parsed, does not ask for help and does not give the `input`
option: the program opens no file and invokes no engine routine (`run` is never entered),
inserts into `std::cerr` the error naming the missing option followed by the hint to use
`--help`, inserts nothing into `std::cout`, and ends with `EXIT_FAILURE`. -/
theorem main_missing_input_option (fs : FileSystem) (engine : Engine) (argv0 : String)
    (vm : VariablesMap) (hhelp : vm.help = false) (hin : vm.input = none) :
    main fs engine argv0 (.ok vm) =
      .terminated EXIT_FAILURE
        { cout := []
          cerr := [.text "*** ERROR ***: ",
            .what (.logic_error "Option: 'input' is required!"), .text "\n",
            .text "Use \"", .text argv0,
            .text " --help\" for information about application usage.", .endl]
          opened := []
          calls := [] } := by
  simp [main, tryBlock, required_option, count_help, count_input, hhelp, hin, Prog.bind,
    throwException, World.init]

/-- C7 at a concrete input: the command line gives no option at all. -/
theorem main_missing_input_option_witness :
    main (oneFile "data.txt" [.number 1]) (constEngine [] []) "powerlawFit"
        (.ok (defaults none)) =
      .terminated EXIT_FAILURE
        { cout := []
          cerr := [.text "*** ERROR ***: ",
            .what (.logic_error "Option: 'input' is required!"), .text "\n",
            .text "Use \"", .text "powerlawFit",
            .text " --help\" for information about application usage.", .endl]
          opened := []
          calls := [] } :=
  main_missing_input_option (oneFile "data.txt" [.number 1]) (constEngine [] []) "powerlawFit"
    (defaults none) rfl rfl

/-- C8. For a command line that parsed and holds the help option, with or without the
`input` option: the program inserts the usage text into `std::cout` (program name,
description, option list), opens no file, invokes no engine routine, and ends with
`EXIT_SUCCESS`. -/
theorem main_help (fs : FileSystem) (engine : Engine) (argv0 : String) (vm : VariablesMap)
    (hhelp : vm.help = true) :
    main fs engine argv0 (.ok vm) =
      .terminated EXIT_SUCCESS
        { cout := [.text argv0, .text ": ", .text description, .endl, .desc, .text "\n"]
          cerr := []
          opened := []
          calls := [] } := by
  simp [main, tryBlock, count_help, hhelp, Prog.bind, cout, World.init]

/-- C8 at two concrete inputs: help without the input option, and help with it. -/
theorem main_help_witness :
    main (oneFile "data.txt" [.number 1]) (constEngine [] []) "powerlawFit"
        (.ok { defaults none with help := true }) =
      .terminated EXIT_SUCCESS
        { cout := [.text "powerlawFit", .text ": ", .text description, .endl, .desc,
            .text "\n"]
          cerr := []
          opened := []
          calls := [] } ∧
    main (oneFile "data.txt" [.number 1]) (constEngine [] []) "powerlawFit"
        (.ok { defaults (some "data.txt") with help := true }) =
      .terminated EXIT_SUCCESS
        { cout := [.text "powerlawFit", .text ": ", .text description, .endl, .desc,
            .text "\n"]
          cerr := []
          opened := []
          calls := [] } :=
  ⟨main_help (oneFile "data.txt" [.number 1]) (constEngine [] []) "powerlawFit"
      { defaults none with help := true } rfl,
    main_help (oneFile "data.txt" [.number 1]) (constEngine [] []) "powerlawFit"
      { defaults (some "data.txt") with help := true } rfl⟩

/-- C9. When the input file holds the numbers `vs`, at least one and all non-negative:
`run` invokes exactly one engine routine, `BootstrapFit` when the bootstrap flag is set and
`SingleFit` when it is not; the routine receives `vs`, in file order and unchanged, and the
other arguments as `run` got them. Through `main` these are the values of the command
line. -/
theorem run_invokes_exactly_one_engine_routine (fs : FileSystem) (engine : Engine)
    (argv0 : String) (vm : VariablesMap) (path : String) (vs : VectorType)
    (hfs : fs path = some (vs.map Token.number)) (hne : vs ≠ []) (hpos : ∀ v ∈ vs, 0 ≤ v) :
    (∀ (nosmall finite : Bool) (startXmin incrementXmin endXmin : ValueType) (bootstrap : Bool)
        (bootstrapIterations : Nat) (verbose : Bool) (w : World),
      (run fs engine path nosmall finite startXmin incrementXmin endXmin bootstrap
          bootstrapIterations verbose w).world.calls =
        w.calls ++
          [if bootstrap then
            .BootstrapFit vs nosmall finite startXmin incrementXmin endXmin bootstrapIterations
              verbose
          else
            .SingleFit vs nosmall finite startXmin incrementXmin endXmin]) ∧
    (vm.help = false → vm.input = some path →
      (main fs engine argv0 (.ok vm)).world.calls =
        [if vm.bootstrap then
          .BootstrapFit vs vm.nosmall vm.finite vm.startXmin vm.incrementXmin vm.endXmin
            vm.bootstrapIterations vm.verbose
        else
          .SingleFit vs vm.nosmall vm.finite vm.startXmin vm.incrementXmin vm.endXmin]) := by
  have hread := readLoop_numbers_eof vs
  have hrun : ∀ (nosmall finite : Bool) (startXmin incrementXmin endXmin : ValueType)
      (bootstrap : Bool) (bootstrapIterations : Nat) (verbose : Bool) (w : World),
      (run fs engine path nosmall finite startXmin incrementXmin endXmin bootstrap
          bootstrapIterations verbose w).world.calls =
        w.calls ++
          [if bootstrap then
            .BootstrapFit vs nosmall finite startXmin incrementXmin endXmin bootstrapIterations
              verbose
          else
            .SingleFit vs nosmall finite startXmin incrementXmin endXmin] := by
    intro nosmall finite startXmin incrementXmin endXmin bootstrap bootstrapIterations verbose w
    have h := run_accepted_calls fs engine path nosmall finite startXmin incrementXmin endXmin
      bootstrap bootstrapIterations verbose _ w hfs (by rw [hread]; exact hne)
      (by rw [hread]; exact hpos)
    rw [hread] at h
    exact h
  refine ⟨hrun, ?_⟩
  intro hhelp hin
  rw [main_calls_of_run fs engine argv0 vm path hhelp hin, hrun]
  simp [World.init]

/-- C9 at a concrete input: the file holds `1 2 3`, the command line is
`-i data.txt -b -s -n 50`. -/
theorem run_invokes_exactly_one_engine_routine_witness :
    (main (oneFile "data.txt" [.number 1, .number 2, .number 3]) (constEngine [] [])
        "powerlawFit"
        (.ok { defaults (some "data.txt") with
          bootstrap := true, nosmall := true, bootstrapIterations := 50 })).world.calls =
      [.BootstrapFit [1, 2, 3] true false 1.5 0.01 3.5 50 false] :=
  (run_invokes_exactly_one_engine_routine
    (oneFile "data.txt" [.number 1, .number 2, .number 3]) (constEngine [] []) "powerlawFit"
    { defaults (some "data.txt") with
      bootstrap := true, nosmall := true, bootstrapIterations := 50 }
    "data.txt" [1, 2, 3] (by simp [oneFile]) (by simp) (by simp)).2 rfl rfl

/-- C10 (the code departs from the claim). When a readable input file yields no value (it is
empty, or its first extraction fails on text that is no number), `getInput` dereferences the iterator that
`std::min_element` returns for the empty range, which is the past-the-end iterator:
undefined behaviour, neither a returned sample nor an exit with a failure status. -/
theorem getInput_no_value_undefined (fs : FileSystem) (input : String) (tokens : List Token)
    (w : World) (hfs : fs input = some tokens)
    (hnone : tokens = [] ∨ ∃ rest, tokens = Token.malformed :: rest) :
    min_element (readLoop tokens []) = none ∧
    getInput fs input w = .undefined { w with opened := w.opened ++ [input] } := by
  have hempty : readLoop tokens [] = [] := by
    rcases hnone with h | ⟨rest, h⟩ <;> simp [h, readLoop]
  exact ⟨by rw [hempty]; rfl, getInput_empty fs input tokens w hfs hempty⟩

/-- C10 at a concrete input: an empty file. -/
theorem getInput_no_value_undefined_witness :
    min_element (readLoop [] []) = none ∧
    getInput (oneFile "empty.txt" []) "empty.txt" World.init =
      .undefined { World.init with opened := World.init.opened ++ ["empty.txt"] } :=
  getInput_no_value_undefined (oneFile "empty.txt" []) "empty.txt" [] World.init
    (by simp [oneFile]) (Or.inl rfl)

end PowerLawFit
